import Mathlib

/-!
# Verification of the Ecological-Data-Dashboard ingestion scripts

A shallow embedding, in Lean 4, of the pure transformation logic of the
CSV-to-MySQL ingestion scripts of the repository
`kjean230/Ecological-Data-Dashboard`, together with theorems settling the
frozen claims about the natural-language specification.

Strings are modelled as `List Char` (Python `str`).  Cells read from a CSV
with pandas are modelled as `Option (List Char)`: `none` stands for a missing
cell (Python `None` / pandas `NaN`); where the scripts would receive the
float `NaN` instead of `None`, the end-to-end observable result coincides
with the `none` case (noted at each definition concerned).  Numeric values
produced by `float(...)` are modelled by the accepted source token: no claim
inspects the numeric value of a float, only whether conversion produced a
value or null, and IEEE arithmetic itself is out of scope.
-/

/-- The characters of a string literal, the `List Char` form used throughout. -/
def chars (s : String) : List Char := s.data

/-- ASCII whitespace as recognised by Python's `str.strip` and the regex
class `\s` (space, tab, newline, carriage return, vertical tab, form feed).
Non-ASCII Unicode whitespace is not modelled; no claim involves it. -/
def isPySpace (c : Char) : Bool :=
  c == ' ' || c == '\t' || c == '\n' || c == '\r' || c == '\x0b' || c == '\x0c'

/-- Python `str.strip()`: drop leading and trailing whitespace. -/
def pyStrip (s : List Char) : List Char :=
  ((s.dropWhile isPySpace).reverse.dropWhile isPySpace).reverse

/-- ASCII lowercase of one character, as Python `str.lower()` acts on ASCII. -/
def pyLowerChar (c : Char) : Char :=
  if 65 ≤ c.toNat ∧ c.toNat ≤ 90 then Char.ofNat (c.toNat + 32) else c

/-- Python `str.lower()` (ASCII fragment). -/
def pyLower (s : List Char) : List Char := s.map pyLowerChar

/-- ASCII decimal digit (regex `\d`, ASCII fragment). -/
def pyIsDigit (c : Char) : Bool := 48 ≤ c.toNat && c.toNat ≤ 57

/-- Numeric value of an ASCII digit character. -/
def digitVal (c : Char) : Nat := c.toNat - 48

/-- Python substring test `needle in hay`. -/
def containsSub (needle : List Char) : List Char → Bool
  | [] => needle.isEmpty
  | c :: rest => needle.isPrefixOf (c :: rest) || containsSub needle rest

/-- Python list slice `l[start:stop]` (with `0 ≤ start ≤ stop`). -/
def pySlice (l : List α) (start stop : Nat) : List α :=
  (l.drop start).take (stop - start)

/-! ## Value converters of `ingest_csv_to_mysql_1995.py` (duplicated verbatim
in `ingest_csv_to_mysql_2005.py`) -/

/-- `to_bool` of the 1995/2005 scripts: tri-state boolean.  Returns the
Python ints `1` / `0` / `None` exactly as the source does. -/
def to_bool (s : Option (List Char)) : Option Int :=
  match s with
  | none => none
  | some s0 =>
    let t := pyLower (pyStrip s0)
    if t ∈ [chars "y", chars "yes", chars "1", chars "true", chars "t"] then some 1
    else if t ∈ [chars "n", chars "no", chars "0", chars "false", chars "f"] then some 0
    else none

/-- Full match of the regex `-?\d+`. -/
def intFullmatch : List Char → Bool
  | [] => false
  | '-' :: r => !r.isEmpty && r.all pyIsDigit
  | l => l.all pyIsDigit

/-- Decimal value of a list of ASCII digits. -/
def digitsToNat (l : List Char) : Nat := l.foldl (fun acc c => 10 * acc + digitVal c) 0

/-- Python `int(t)` on a string already known to match `-?\d+`. -/
def parsePyInt : List Char → Int
  | '-' :: r => -(digitsToNat r : Int)
  | l => (digitsToNat l : Int)

/-- `to_int` of the 1995/2005 scripts: `re.sub(r"[,\s]", "", str(s))`, then
`int(t)` when `t` is nonempty and fully matches `-?\d+`, else `None`. -/
def to_int (s : Option (List Char)) : Option Int :=
  match s with
  | none => none
  | some s0 =>
    let t := s0.filter (fun c => !(isPySpace c || c == ','))
    if !t.isEmpty && intFullmatch t then some (parsePyInt t) else none

/-- `to_int_bounded` of the 1995/2005 scripts: `to_int`, then `None` outside
the closed range `[low, high]`. -/
def to_int_bounded (s : Option (List Char)) (low high : Int) : Option Int :=
  match to_int s with
  | none => none
  | some v => if low ≤ v ∧ v ≤ high then some v else none

/-! ### The grammar accepted by Python `float(str)`

`float` strips surrounding whitespace, then accepts an optional sign followed
by `inf`, `infinity`, `nan` (case-insensitive) or a numeric literal
`digitpart [. [digitpart]] [exp]` / `. digitpart [exp]`, where `digitpart`
is digits with single underscores between digits and
`exp := (e|E) [sign] digitpart`. -/

/-- Greedily consume further digits, allowing a single `_` between digits. -/
def eatDigitsU : List Char → List Char
  | [] => []
  | ['_'] => ['_']
  | '_' :: c :: r => if pyIsDigit c then eatDigitsU r else '_' :: c :: r
  | c :: r => if pyIsDigit c then eatDigitsU r else c :: r

/-- Consume a `digitpart` (at least one digit); `none` when absent. -/
def eatDigitpart : List Char → Option (List Char)
  | [] => none
  | c :: r => if pyIsDigit c then some (eatDigitsU r) else none

/-- A `digitpart` consuming the whole remaining input. -/
def digitpartEnd (l : List Char) : Bool :=
  match eatDigitpart l with
  | some [] => true
  | _ => false

/-- Optional exponent part closing the literal. -/
def expPartOk : List Char → Bool
  | [] => true
  | e :: r =>
    if e == 'e' || e == 'E' then
      match r with
      | '+' :: r2 => digitpartEnd r2
      | '-' :: r2 => digitpartEnd r2
      | _ => digitpartEnd r
    else false

/-- What may follow the integer part of a numeric literal. -/
def afterIntPart : List Char → Bool
  | '.' :: r =>
    (match eatDigitpart r with
     | some r2 => expPartOk r2
     | none => expPartOk r)
  | l => expPartOk l

/-- Numeric literal body (no sign): `digitpart [. [digitpart]] [exp]`
or `. digitpart [exp]`. -/
def floatNumeric (l : List Char) : Bool :=
  match eatDigitpart l with
  | some r => afterIntPart r
  | none =>
    match l with
    | '.' :: r =>
      (match eatDigitpart r with
       | some r2 => expPartOk r2
       | none => false)
    | _ => false

/-- Literal body after the optional sign: `inf`/`infinity`/`nan` or numeric. -/
def floatBody (l : List Char) : Bool :=
  pyLower l ∈ [chars "inf", chars "infinity", chars "nan"] || floatNumeric l

/-- Whether Python `float(s)` succeeds (as opposed to raising `ValueError`). -/
def pyFloatAccept (s : List Char) : Bool :=
  match pyStrip s with
  | '+' :: r => floatBody r
  | '-' :: r => floatBody r
  | t => floatBody t

/-- `to_dec` of the 1995/2005 scripts: `re.sub(r"[,\s]", "", str(s))`, then
`float(t)` when `t` is nonempty (returning `None` on `ValueError`).  The
float value is modelled by the accepted token; no claim inspects it. -/
def to_dec (s : Option (List Char)) : Option (List Char) :=
  match s with
  | none => none
  | some s0 =>
    let t := s0.filter (fun c => !(isPySpace c || c == ','))
    if !t.isEmpty && pyFloatAccept t then some t else none

/-- `condition_to_health_3cat` of `ingest_csv_to_mysql_1995.py`:
the 3-bucket normalizer applied to the 1995 `condition` column. -/
def condition_to_health_3cat (s : Option (List Char)) : Option (List Char) :=
  match s with
  | none => none
  | some s0 =>
    let t := pyLower (pyStrip s0)
    if t ∈ [chars "excellent", chars "e"] then some (chars "Good")
    else if t ∈ [chars "good", chars "g"] then some (chars "Fair")
    else if t ∈ [chars "poor", chars "p", chars "dead", chars "d", chars "fair", chars "f"] then
      some (chars "Poor")
    else none

/-- `status_to_health_3cat` of `ingest_csv_to_mysql_2005.py` (same body as
the 1995 converter, duplicated in the source). -/
def status_to_health_3cat (s : Option (List Char)) : Option (List Char) :=
  match s with
  | none => none
  | some s0 =>
    let t := pyLower (pyStrip s0)
    if t ∈ [chars "excellent", chars "e"] then some (chars "Good")
    else if t ∈ [chars "good", chars "g"] then some (chars "Fair")
    else if t ∈ [chars "poor", chars "p", chars "dead", chars "d", chars "fair", chars "f"] then
      some (chars "Poor")
    else none

/-- `health_to_health_3cat` of `ingest_csv_to_mysql_2015.py`: maps the 2015
`health` labels `good`/`fair`/`poor` (case-insensitively, trimmed) to
themselves in canonical capitalisation, anything else to `None`. -/
def health_to_health_3cat (s : Option (List Char)) : Option (List Char) :=
  match s with
  | none => none
  | some s0 =>
    let t := pyLower (pyStrip s0)
    if t = chars "good" then some (chars "Good")
    else if t = chars "fair" then some (chars "Fair")
    else if t = chars "poor" then some (chars "Poor")
    else none

/-! ## Date parsing: `datetime.strptime` restricted to the directives the
scripts use (`%Y`, `%y`, `%m`, `%d` and literal separators)

CPython's `_strptime` compiles `%Y` to `\d{4}`, `%y` to `\d{2}`,
`%m` to `1[0-2]|0[1-9]|[1-9]` and `%d` to `3[01]|[12]\d|0[1-9]|[1-9]`;
the whole input must be consumed, `%y` maps `00-68` to `20xx` and `69-99`
to `19xx`, and the resulting calendar date is validated by the `datetime`
constructor (raising `ValueError`, which the scripts catch).  Because in the
formats used every digit group is followed by a non-digit literal or the end
of the input, the regex alternations never need backtracking, so the
first-alternative parsers below are exact. -/

/-- A `strptime` format directive. -/
inductive Directive where
  | Y4 : Directive
  | Y2 : Directive
  | M : Directive
  | D : Directive
  | Lit : Char → Directive
deriving DecidableEq, Repr

/-- A parsed calendar date. -/
structure PDate where
  y : Nat
  m : Nat
  d : Nat
deriving DecidableEq, Repr

/-- `%Y`: exactly four digits. -/
def pYear4 : List Char → Option (Nat × List Char)
  | a :: b :: c :: d :: rest =>
    if pyIsDigit a && pyIsDigit b && pyIsDigit c && pyIsDigit d then
      some (1000 * digitVal a + 100 * digitVal b + 10 * digitVal c + digitVal d, rest)
    else none
  | _ => none

/-- `%y`: exactly two digits, with CPython's century rule. -/
def pYear2 : List Char → Option (Nat × List Char)
  | a :: b :: rest =>
    if pyIsDigit a && pyIsDigit b then
      let v := 10 * digitVal a + digitVal b
      some (if v ≤ 68 then 2000 + v else 1900 + v, rest)
    else none
  | _ => none

/-- `%m`: regex `1[0-2]|0[1-9]|[1-9]`. -/
def pMonth : List Char → Option (Nat × List Char)
  | a :: b :: rest =>
    if a == '1' && (b == '0' || b == '1' || b == '2') then some (10 + digitVal b, rest)
    else if a == '0' && pyIsDigit b && b != '0' then some (digitVal b, rest)
    else if pyIsDigit a && a != '0' then some (digitVal a, b :: rest)
    else none
  | [a] => if pyIsDigit a && a != '0' then some (digitVal a, []) else none
  | [] => none

/-- `%d`: regex `3[01]|[12]\d|0[1-9]|[1-9]`. -/
def pDay : List Char → Option (Nat × List Char)
  | a :: b :: rest =>
    if a == '3' && (b == '0' || b == '1') then some (30 + digitVal b, rest)
    else if (a == '1' || a == '2') && pyIsDigit b then
      some (10 * digitVal a + digitVal b, rest)
    else if a == '0' && pyIsDigit b && b != '0' then some (digitVal b, rest)
    else if pyIsDigit a && a != '0' then some (digitVal a, b :: rest)
    else none
  | [a] => if pyIsDigit a && a != '0' then some (digitVal a, []) else none
  | [] => none

/-- Run a directive list over the input, threading the `strptime` defaults
(year 1900, month 1, day 1) and requiring the whole input to be consumed. -/
def runFmt : List Directive → List Char → Nat → Nat → Nat → Option PDate
  | [], l, y, m, d => if l.isEmpty then some ⟨y, m, d⟩ else none
  | .Y4 :: rest, l, _, m, d =>
    match pYear4 l with
    | some (v, l2) => runFmt rest l2 v m d
    | none => none
  | .Y2 :: rest, l, _, m, d =>
    match pYear2 l with
    | some (v, l2) => runFmt rest l2 v m d
    | none => none
  | .M :: rest, l, y, _, d =>
    match pMonth l with
    | some (v, l2) => runFmt rest l2 y v d
    | none => none
  | .D :: rest, l, y, m, _ =>
    match pDay l with
    | some (v, l2) => runFmt rest l2 y m v
    | none => none
  | .Lit c :: rest, l, y, m, d =>
    match l with
    | x :: l2 => if x = c then runFmt rest l2 y m d else none
    | [] => none

/-- Days in a month, with the Gregorian leap-year rule (as `datetime`). -/
def daysInMonth (y m : Nat) : Nat :=
  if m = 2 then
    if y % 4 = 0 && (y % 100 ≠ 0 || y % 400 = 0) then 29 else 28
  else if m = 4 || m = 6 || m = 9 || m = 11 then 30
  else 31

/-- The `datetime` constructor's validation (year 1-9999, valid month/day). -/
def mkValidDate (p : PDate) : Option PDate :=
  if 1 ≤ p.y ∧ p.y ≤ 9999 ∧ 1 ≤ p.m ∧ p.m ≤ 12 ∧ 1 ≤ p.d ∧ p.d ≤ daysInMonth p.y p.m then
    some p
  else none

/-- `datetime.strptime(l, fmt)` for the supported directives: parse, then
validate; `none` models the caught `ValueError`. -/
def strptimeDate (ds : List Directive) (l : List Char) : Option PDate :=
  (runFmt ds l 1900 1 1).bind mkValidDate

/-- Two-digit zero-padded rendering. -/
def pad2 (n : Nat) : List Char :=
  [Char.ofNat (48 + n / 10 % 10), Char.ofNat (48 + n % 10)]

/-- Four-digit zero-padded rendering. -/
def pad4 (n : Nat) : List Char :=
  [Char.ofNat (48 + n / 1000 % 10), Char.ofNat (48 + n / 100 % 10),
   Char.ofNat (48 + n / 10 % 10), Char.ofNat (48 + n % 10)]

/-- `date.isoformat()`: `YYYY-MM-DD`, no time component. -/
def isoRender (p : PDate) : List Char :=
  pad4 p.y ++ '-' :: pad2 p.m ++ '-' :: pad2 p.d

/-- The fixed ordered pattern list of `to_iso_date` in
`ingest_csv_to_mysql_2015.py`:
`%Y-%m-%d`, `%m/%d/%Y`, `%m/%d/%y`, `%m-%d-%Y`, `%m-%d-%y`. -/
def STRPTIME_FORMATS : List (List Directive) :=
  [[.Y4, .Lit '-', .M, .Lit '-', .D],
   [.M, .Lit '/', .D, .Lit '/', .Y4],
   [.M, .Lit '/', .D, .Lit '/', .Y2],
   [.M, .Lit '-', .D, .Lit '-', .Y4],
   [.M, .Lit '-', .D, .Lit '-', .Y2]]

/-- `to_iso_date` of `ingest_csv_to_mysql_2015.py`: strip, return `None` for
the empty string and the placeholders `na`/`n/a`/`null` (case-insensitive),
otherwise try the fixed ordered format list, the first format that parses
winning, and render the date in ISO form; no match gives `None`. -/
def to_iso_date (s : Option (List Char)) : Option (List Char) :=
  match s with
  | none => none
  | some s0 =>
    let t := pyStrip s0
    if t.isEmpty || pyLower t ∈ [chars "na", chars "n/a", chars "null"] then none
    else (STRPTIME_FORMATS.findSome? (fun f => strptimeDate f t)).map isoRender

/-! ## `ingest_csv_to_mysql_air_quality.py`: borough and geo-level inference -/

/-- `BOROUGH_MAP_SECONDARY`: the explicit exception dictionary, as an
association list in the source's (insertion-order-preserving) key order. -/
def BOROUGH_MAP_SECONDARY : List (List Char × List Char) :=
  [(chars "washington heights", chars "Manhattan"),
   (chars "stuyvesant town", chars "Manhattan"),
   (chars "turtle bay", chars "Manhattan"),
   (chars "new york city", chars "Manhattan"),
   (chars "throgs neck", chars "Bronx"),
   (chars "co-op city", chars "Bronx"),
   (chars "hunts point", chars "Bronx"),
   (chars "longwood", chars "Bronx"),
   (chars "downtown", chars "Brooklyn"),
   (chars "heights", chars "Brooklyn"),
   (chars "slope", chars "Brooklyn"),
   (chars "carroll gardens", chars "Brooklyn"),
   (chars "park slope", chars "Brooklyn"),
   (chars "east new york", chars "Brooklyn"),
   (chars "greenpoint", chars "Brooklyn"),
   (chars "williamsburg", chars "Brooklyn"),
   (chars "rockaway", chars "Queens"),
   (chars "broad channel", chars "Queens"),
   (chars "jackson heights", chars "Queens"),
   (chars "fresh meadows", chars "Queens"),
   (chars "hillcrest", chars "Queens"),
   (chars "east new york and starrett city", chars "Brooklyn"),
   (chars "rockaways", chars "Queens"),
   (chars "southern si", chars "Staten Island"),
   (chars "northern si", chars "Staten Island")]

/-- The Bronx generic keyword set (source order). -/
def BRONX_KEYWORDS : List (List Char) :=
  [chars "bronx", chars "fordham", chars "tremont", chars "crotona", chars "morris",
   chars "mott haven", chars "pelham", chars "riverdale", chars "soundview",
   chars "williamsbridge", chars "concourse", chars "parkchester", chars "highbridge"]

/-- The Brooklyn generic keyword set (source order). -/
def BROOKLYN_KEYWORDS : List (List Char) :=
  [chars "brooklyn", chars "flatbush", chars "bushwick", chars "bedford",
   chars "crown heights", chars "borough park", chars "bensonhurst", chars "bay ridge",
   chars "brownsville", chars "canarsie", chars "sheepshead", chars "coney",
   chars "flatlands", chars "midwood", chars "prospect", chars "sunset park"]

/-- The Queens generic keyword set (source order). -/
def QUEENS_KEYWORDS : List (List Char) :=
  [chars "queens", chars "jamaica", chars "astoria", chars "flushing", chars "elmhurst",
   chars "forest hills", chars "corona", chars "far rockaway", chars "ridgewood",
   chars "kew gardens", chars "bayside", chars "woodside", chars "rego park",
   chars "little neck", chars "howard beach", chars "ozone park"]

/-- The Manhattan generic keyword set (source order). -/
def MANHATTAN_KEYWORDS : List (List Char) :=
  [chars "manhattan", chars "harlem", chars "upper west side", chars "upper east side",
   chars "chelsea", chars "soho", chars "village", chars "midtown", chars "gramercy",
   chars "financial district", chars "tribeca", chars "morningside", chars "battery park",
   chars "inwood", chars "lower east side"]

/-- The Staten Island generic keyword set (source order). -/
def STATEN_ISLAND_KEYWORDS : List (List Char) :=
  [chars "staten", chars "tottenville", chars "st. george", chars "staten island",
   chars "stapleton", chars "willowbrook", chars "great kills", chars "new dorp",
   chars "richmond", chars "south beach"]

/-- `infer_borough` of `ingest_csv_to_mysql_air_quality.py`.  `none` models a
missing / non-string cell (the `isinstance` check).  Step 1 scans the
exception dictionary in order; step 2 falls back to the generic keyword sets
in the source's order (Bronx, Brooklyn, Queens, Manhattan, Staten Island). -/
def infer_borough (name : Option (List Char)) : List Char :=
  match name with
  | none => chars "Unknown"
  | some s =>
    if (pyStrip s).isEmpty then chars "Unknown"
    else
      let n := pyStrip (pyLower s)
      match BOROUGH_MAP_SECONDARY.find? (fun kb => containsSub kb.1 n) with
      | some kb => kb.2
      | none =>
        if BRONX_KEYWORDS.any (fun k => containsSub k n) then chars "Bronx"
        else if BROOKLYN_KEYWORDS.any (fun k => containsSub k n) then chars "Brooklyn"
        else if QUEENS_KEYWORDS.any (fun k => containsSub k n) then chars "Queens"
        else if MANHATTAN_KEYWORDS.any (fun k => containsSub k n) then chars "Manhattan"
        else if STATEN_ISLAND_KEYWORDS.any (fun k => containsSub k n) then chars "Staten Island"
        else chars "Unknown"

/-- The claim's view of the same search: one flat prioritized rule list,
exception dictionary first, then the per-borough keyword sets in order. -/
def boroughRules : List (List Char × List Char) :=
  BOROUGH_MAP_SECONDARY
    ++ BRONX_KEYWORDS.map (fun k => (k, chars "Bronx"))
    ++ BROOKLYN_KEYWORDS.map (fun k => (k, chars "Brooklyn"))
    ++ QUEENS_KEYWORDS.map (fun k => (k, chars "Queens"))
    ++ MANHATTAN_KEYWORDS.map (fun k => (k, chars "Manhattan"))
    ++ STATEN_ISLAND_KEYWORDS.map (fun k => (k, chars "Staten Island"))

/-- Borough inference as the specification words it: lowercase and trim,
take the first matching rule of the flat prioritized list, `Unknown` when
nothing matches or the input is missing/blank. -/
def borough_spec (name : Option (List Char)) : List Char :=
  match name with
  | none => chars "Unknown"
  | some s =>
    if (pyStrip s).isEmpty then chars "Unknown"
    else
      let n := pyStrip (pyLower s)
      match boroughRules.find? (fun kb => containsSub kb.1 n) with
      | some kb => kb.2
      | none => chars "Unknown"

/-- The five borough names recognised by `infer_geo_level`. -/
def BOROUGH_NAMES : List (List Char) :=
  [chars "bronx", chars "brooklyn", chars "queens", chars "manhattan",
   chars "staten island"]

/-- `infer_geo_level` of `ingest_csv_to_mysql_air_quality.py`. -/
def infer_geo_level (name : Option (List Char)) : List Char :=
  match name with
  | none => chars "Unknown"
  | some s =>
    if (pyStrip s).isEmpty then chars "Unknown"
    else if pyStrip (pyLower s) ∈ BOROUGH_NAMES then chars "Borough"
    else chars "Neighborhood"

/-! ## `ingest_monthly_temp_data_2022_to_2024.py`: transform and row dropping

The weather CSVs are read with `dtype=str, keep_default_na=False`, so every
cell is a plain Python string (never `NaN`); `df[col].notnull()` on such a
column is identically true. -/

/-- `INSERT_COLUMNS` of the heat-vulnerability script, exactly as in the
source: two columns, no `file_name`. -/
def HEAT_INSERT_COLUMNS : List (List Char) :=
  [chars "zip_code_tabulation_area", chars "heat_vulerability_index"]

/-- Cell lookup in a data-frame row modelled as an association list. -/
def lookupCell (row : List (List Char × Option (List Char))) (c : List Char) :
    Option (List Char) :=
  match row.find? (fun p => p.1 = c) with
  | some p => p.2
  | none => none

/-- Column assignment `df[c] = v` on one row: overwrite or append. -/
def setCol (row : List (List Char × Option (List Char))) (c : List Char)
    (v : Option (List Char)) : List (List Char × Option (List Char)) :=
  row.filter (fun p => p.1 ≠ c) ++ [(c, v)]

/-- The heat-vulnerability script's record construction for one row:
`df["file_name"] = FILE_NAME_FOR_PROVENANCE`, trim string cells, then
`df = df[INSERT_COLUMNS]` — which selects only the two insert columns. -/
def heat_build_record (row : List (List Char × Option (List Char)))
    (prov : List Char) : List (Option (List Char)) :=
  let row1 := setCol row (chars "file_name") (some prov)
  let row2 := row1.map (fun p => (p.1, p.2.map pyStrip))
  HEAT_INSERT_COLUMNS.map (fun c => lookupCell row2 c)

/-! ## Required-column validation -/

/-- `SRC_COLUMNS` of `ingest_csv_to_mysql_1995.py`. -/
def SRC_COLUMNS_1995 : List (List Char) :=
  [chars "recordid", chars "address", chars "house_number", chars "street",
   chars "postcode_original", chars "community_board_original", chars "site",
   chars "species", chars "diameter", chars "condition", chars "wires",
   chars "sidewalk_condition", chars "support_structure", chars "borough",
   chars "x", chars "y", chars "longitude", chars "latitude", chars "cb_new",
   chars "zip_new", chars "censustract_2010", chars "censusblock_2010",
   chars "nta_2010", chars "segmentid", chars "spc_common", chars "spc_latin",
   chars "location", chars "council_district", chars "bin", chars "bbl"]

/-- `SRC_COLUMNS` of `ingest_csv_to_mysql_2005.py`. -/
def SRC_COLUMNS_2005 : List (List Char) :=
  [chars "objectid", chars "cen_year", chars "tree_dbh", chars "address",
   chars "tree_loc", chars "pit_type", chars "soil_lvl", chars "status",
   chars "spc_latin", chars "spc_common", chars "vert_other", chars "vert_pgrd",
   chars "vert_tgrd", chars "vert_wall", chars "horz_blck", chars "horz_grate",
   chars "horz_plant", chars "horz_other", chars "sidw_crack", chars "sidw_raise",
   chars "wire_htap", chars "wire_prime", chars "wire_2nd", chars "wire_other",
   chars "inf_canopy", chars "inf_guard", chars "inf_wires", chars "inf_paving",
   chars "inf_outlet", chars "inf_shoes", chars "inf_lights", chars "inf_other",
   chars "trunk_dmg", chars "zipcode", chars "zip_city", chars "cb_num",
   chars "borocode", chars "boroname", chars "cncldist", chars "st_assem",
   chars "st_senate", chars "nta", chars "nta_name", chars "boro_ct",
   chars "state", chars "latitude", chars "longitude", chars "x_sp",
   chars "y_sp", chars "objectid_1", chars "census_tract", chars "bin",
   chars "bbl", chars "location_1"]

/-- `INSERT_COLUMNS` of `ingest_csv_to_mysql_2015.py`. -/
def INSERT_COLUMNS_2015 : List (List Char) :=
  [chars "tree_id", chars "block_id", chars "created_at", chars "tree_dbh",
   chars "stump_diam", chars "curb_loc", chars "status", chars "health",
   chars "health_3cat", chars "spc_latin", chars "spc_common", chars "steward",
   chars "guards", chars "sidewalk", chars "user_type", chars "problems",
   chars "root_stone", chars "root_grate", chars "root_other", chars "trunk_wire",
   chars "trnk_light", chars "trnk_other", chars "brch_light", chars "brch_shoe",
   chars "brch_other", chars "address", chars "postcode", chars "zip_city",
   chars "community_board", chars "borocode", chars "borough", chars "cncldist",
   chars "st_assem", chars "st_senate", chars "nta", chars "nta_name",
   chars "boro_ct", chars "state", chars "latitude", chars "longitude",
   chars "x_sp", chars "y_sp", chars "council_district", chars "census_tract",
   chars "bin", chars "bbl", chars "file_name"]

/-- `missing = [c for c in SRC_COLUMNS if c not in df.columns]` (1995). -/
def missing_1995 (headers : List (List Char)) : List (List Char) :=
  SRC_COLUMNS_1995.filter (fun c => decide (c ∉ headers))

/-- Same check in the 2005 script. -/
def missing_2005 (headers : List (List Char)) : List (List Char) :=
  SRC_COLUMNS_2005.filter (fun c => decide (c ∉ headers))

/-- The heat-vulnerability script's required list:
`[c for c in INSERT_COLUMNS if c != "file_name"]`, then the same check. -/
def missing_heat (headers : List (List Char)) : List (List Char) :=
  (HEAT_INSERT_COLUMNS.filter (fun c => c ≠ chars "file_name")).filter
    (fun c => decide (c ∉ headers))

/-- Outcome of the validation stage of a script: the error (listing the
missing columns) when validation fails, and whether control reached the
transformation stage.  In each script's `main`, every value conversion and
every database statement comes strictly after this check, so
`proceededToTransform = false` entails that no value conversion was applied
and no row was committed. -/
def run_1995_validation (headers : List (List Char)) :
    Option (List (List Char)) × Bool :=
  if missing_1995 headers = [] then (none, true) else (some (missing_1995 headers), false)

/-- Validation stage of the 2005 script. -/
def run_2005_validation (headers : List (List Char)) :
    Option (List (List Char)) × Bool :=
  if missing_2005 headers = [] then (none, true) else (some (missing_2005 headers), false)

/-- Validation stage of the heat-vulnerability script. -/
def run_heat_validation (headers : List (List Char)) :
    Option (List (List Char)) × Bool :=
  if missing_heat headers = [] then (none, true) else (some (missing_heat headers), false)

/-- The head of `main` in `ingest_csv_to_mysql_2015.py`, which performs no
required-column validation.  Input: the normalized header list and the row
count; output: the number of single-value conversions applied before the
run either fails or reaches the insert stage, and the columns named by the
failing `KeyError` (if any).  Step order as in the source: drop `id`;
`df["created_at"].map(to_iso_date)` (a `KeyError` if `created_at` is
absent, else one conversion per row); `df["health"].map(health_to_health_3cat)`
(a `KeyError` if `health` is absent, after the date conversions already ran);
assign `file_name`; select `df[INSERT_COLUMNS]` (a `KeyError` listing every
insert column still missing). -/
def run2015Head (headers : List (List Char)) (nrows : Nat) :
    Nat × Option (List (List Char)) :=
  let headers := headers.filter (fun c => c ≠ chars "id")
  if decide ((chars "created_at") ∉ headers) then (0, some [chars "created_at"])
  else if decide ((chars "health") ∉ headers) then (nrows, some [chars "health"])
  else
    let cols := headers ++ [chars "health_3cat", chars "file_name"]
    let missingSel := INSERT_COLUMNS_2015.filter (fun c => decide (c ∉ cols))
    if missingSel = [] then (2 * nrows, none) else (2 * nrows, some missingSel)

/-! ## The batcher -/

/-- `math.ceil(total / BATCH_SIZE)` (exact ceiling division; the scripts'
float division is exact for every realistic row count). -/
def ceilDiv (a b : Nat) : Nat := (a + b - 1) / b

/-- The batch loop of `ingest_csv_to_mysql_2015.py` (closed form):
`start, end = b * S, min((b + 1) * S, total); batch = records[start:end]`. -/
def batches2015 (records : List α) (S : Nat) : List (List α) :=
  (List.range (ceilDiv records.length S)).map
    (fun b => pySlice records (b * S) (min ((b + 1) * S) records.length))

/-- The batch loop of `ingest_csv_to_mysql_1995.py`, which carries `start`
through the loop: `end = min(start + S, total); batch = records[start:end];
start = end`. -/
def go1995 (records : List α) (S : Nat) : Nat → Nat → List (List α)
  | 0, _ => []
  | k + 1, start =>
    pySlice records start (min (start + S) records.length) ::
      go1995 records S k (min (start + S) records.length)

/-- The 1995-style batch list: `ceil(total / S)` iterations from `start = 0`. -/
def batches1995 (records : List α) (S : Nat) : List (List α) :=
  go1995 records S (ceilDiv records.length S) 0

/-- Reference chunking: first `S` elements, then recurse on the rest. -/
def chunksF (S : Nat) : Nat → List α → List (List α)
  | 0, _ => []
  | k + 1, l => l.take S :: chunksF S k (l.drop S)

/-! ## The loader -/

/-- Observable outcome of one load run: which batch indices were attempted
and committed (in order), which batch was rolled back, whether the
verification query ran, and whether the run terminated fatally (the batch
exception re-raised). -/
structure LoadRun where
  committed : List Nat
  attempted : List Nat
  rolledBack : Option Nat
  verified : Bool
  fatal : Bool
deriving DecidableEq, Repr

/-- The batch loop of `ingest_csv_to_mysql_1995.py` `main`, over the list of
per-batch insert outcomes (`true` = `executemany` + `commit` succeed):
on success commit and continue; on failure roll back, print, `raise` —
which skips every later batch and the verification query.  After the loop,
`SELECT COUNT(*)` (the verification) runs. -/
def loadGo : List Bool → Nat → List Nat → List Nat → LoadRun
  | [], _, comm, att =>
    { committed := comm.reverse, attempted := att.reverse,
      rolledBack := none, verified := true, fatal := false }
  | ok :: rest, i, comm, att =>
    if ok then loadGo rest (i + 1) (i :: comm) (i :: att)
    else
      { committed := comm.reverse, attempted := (i :: att).reverse,
        rolledBack := some i, verified := false, fatal := true }

/-- One load run over the given per-batch outcomes. -/
def runLoad (outcomes : List Bool) : LoadRun := loadGo outcomes 0 [] []

/-! ## Character- and string-level helper lemmas -/

theorem char_toNat_inj {a b : Char} (h : a.toNat = b.toNat) : a = b :=
  Char.ext (UInt32.ext h)

theorem toNat_ofNat_lt (n : Nat) (h : n < 55296) : (Char.ofNat n).toNat = n := by
  unfold Char.ofNat
  rw [dif_pos (Or.inl h)]
  unfold Char.ofNatAux Char.toNat
  simp [UInt32.toNat]

theorem toNat_lt_of_isPySpace {c : Char} (h : isPySpace c = true) : c.toNat < 33 := by
  unfold isPySpace at h
  simp only [Bool.or_eq_true, beq_iff_eq] at h
  rcases h with ((((h | h) | h) | h) | h) | h <;> subst h <;> decide

theorem pyLowerChar_toNat (c : Char) :
    (pyLowerChar c).toNat =
      if 65 ≤ c.toNat ∧ c.toNat ≤ 90 then c.toNat + 32 else c.toNat := by
  unfold pyLowerChar
  split
  case isTrue h => exact toNat_ofNat_lt _ (by omega)
  case isFalse h => rfl

theorem pyLowerChar_of_digit {c : Char} (h : pyIsDigit c = true) : pyLowerChar c = c := by
  simp only [pyIsDigit, Bool.and_eq_true, decide_eq_true_eq] at h
  unfold pyLowerChar
  rw [if_neg (by omega)]

theorem not_digit_of_lower_n {c : Char} (h : pyLowerChar c = 'n') : pyIsDigit c = false := by
  by_contra hd
  rw [Bool.not_eq_false] at hd
  rw [pyLowerChar_of_digit hd] at h
  subst h
  exact absurd hd (by decide)

theorem isPySpace_pyLowerChar (c : Char) : isPySpace (pyLowerChar c) = isPySpace c := by
  unfold pyLowerChar
  split
  case isTrue h =>
    have h2 : (Char.ofNat (c.toNat + 32)).toNat = c.toNat + 32 := toNat_ofNat_lt _ (by omega)
    have e1 : isPySpace (Char.ofNat (c.toNat + 32)) = false := by
      by_contra hb
      rw [Bool.not_eq_false] at hb
      have := toNat_lt_of_isPySpace hb
      omega
    have e2 : isPySpace c = false := by
      by_contra hb
      rw [Bool.not_eq_false] at hb
      have := toNat_lt_of_isPySpace hb
      omega
    rw [e1, e2]
  case isFalse h => rfl

theorem all_space_pyLower (s : List Char) :
    (pyLower s).all isPySpace = s.all isPySpace := by
  unfold pyLower
  rw [List.all_map]
  congr 1
  funext c
  exact isPySpace_pyLowerChar c

theorem pyStrip_eq_nil_iff (s : List Char) :
    pyStrip s = [] ↔ s.all isPySpace = true := by
  unfold pyStrip
  rw [List.reverse_eq_nil_iff, List.dropWhile_eq_nil_iff, List.all_eq_true]
  constructor
  · intro h x hx
    have hsplit : s.takeWhile isPySpace ++ s.dropWhile isPySpace = s :=
      List.takeWhile_append_dropWhile isPySpace s
    rw [← hsplit] at hx
    rcases List.mem_append.mp hx with h1 | h1
    · exact List.mem_takeWhile_imp h1
    · exact h x (List.mem_reverse.mpr h1)
  · intro h x hx
    exact h x ((List.dropWhile_sublist isPySpace).subset (List.mem_reverse.mp hx))

theorem pyStrip_pyLower_nil {s : List Char} (h : s.all isPySpace = true) :
    pyStrip (pyLower s) = [] := by
  rw [pyStrip_eq_nil_iff, all_space_pyLower]
  exact h

/-! ## Claim theorems -/

/-- C1 (counterexample).  The claim asserts that the category-bucket
converter of *each* script deriving `health_3cat` maps `Excellent` to
`Good` and `good` to `Fair`.  The 2015 script's converter does neither:
`health_to_health_3cat "Excellent"` is null and
`health_to_health_3cat "good"` is `"Good"`, not `"Fair"`. -/
theorem health_to_health_3cat_2015_diverges :
    health_to_health_3cat (some (chars "Excellent")) = none ∧
    health_to_health_3cat (some (chars "good")) = some (chars "Good") ∧
    chars "Good" ≠ chars "Fair" := by decide

/-- C1 (amended).  The 1995 and 2005 category-bucket converters agree and
map, case-insensitively on the trimmed label, exactly `excellent`/`e` to
`Good`, `good`/`g` to `Fair`, `poor`/`p`/`dead`/`d`/`fair`/`f` to `Poor`,
and every other label to null; the 2015 converter instead maps exactly
`good` to `Good`, `fair` to `Fair`, `poor` to `Poor`, and every other label
to null.  All match by exact normalized-label membership, not substring. -/
theorem health_3cat_converters_characterization : ∀ s : List Char,
    status_to_health_3cat (some s) = condition_to_health_3cat (some s) ∧
    (condition_to_health_3cat (some s) = some (chars "Good") ↔
      pyLower (pyStrip s) ∈ [chars "excellent", chars "e"]) ∧
    (condition_to_health_3cat (some s) = some (chars "Fair") ↔
      pyLower (pyStrip s) ∈ [chars "good", chars "g"]) ∧
    (condition_to_health_3cat (some s) = some (chars "Poor") ↔
      pyLower (pyStrip s) ∈ [chars "poor", chars "p", chars "dead", chars "d",
        chars "fair", chars "f"]) ∧
    (condition_to_health_3cat (some s) = none ↔
      pyLower (pyStrip s) ∉ [chars "excellent", chars "e", chars "good", chars "g",
        chars "poor", chars "p", chars "dead", chars "d", chars "fair", chars "f"]) ∧
    (health_to_health_3cat (some s) = some (chars "Good") ↔
      pyLower (pyStrip s) = chars "good") ∧
    (health_to_health_3cat (some s) = some (chars "Fair") ↔
      pyLower (pyStrip s) = chars "fair") ∧
    (health_to_health_3cat (some s) = some (chars "Poor") ↔
      pyLower (pyStrip s) = chars "poor") ∧
    (health_to_health_3cat (some s) = none ↔
      pyLower (pyStrip s) ∉ [chars "good", chars "fair", chars "poor"]) := by
  intro s
  refine ⟨rfl, ?_⟩
  simp only [condition_to_health_3cat, health_to_health_3cat]
  generalize pyLower (pyStrip s) = t
  by_cases c1 : t = chars "excellent"
  · subst c1; decide
  by_cases c2 : t = chars "e"
  · subst c2; decide
  by_cases c3 : t = chars "good"
  · subst c3; decide
  by_cases c4 : t = chars "g"
  · subst c4; decide
  by_cases c5 : t = chars "poor"
  · subst c5; decide
  by_cases c6 : t = chars "p"
  · subst c6; decide
  by_cases c7 : t = chars "dead"
  · subst c7; decide
  by_cases c8 : t = chars "d"
  · subst c8; decide
  by_cases c9 : t = chars "fair"
  · subst c9; decide
  by_cases c10 : t = chars "f"
  · subst c10; decide
  simp [c1, c2, c3, c4, c5, c6, c7, c8, c9, c10]

/-- C2.  In the heat-vulnerability script the provenance tag is *not* among
the inserted values: `INSERT_COLUMNS` holds only the two data columns, so
although `main` assigns `df["file_name"]`, the subsequent
`df = df[INSERT_COLUMNS]` selection drops it, and the record sent to the
insert for a sample row carries no file name. -/
theorem heat_record_lacks_provenance :
    (chars "file_name") ∉ HEAT_INSERT_COLUMNS ∧
    heat_build_record
        [(chars "zip_code_tabulation_area", some (chars "10001")),
         (chars "heat_vulerability_index", some (chars "3"))]
        (chars "Heat_Vulnerability_Index_Rankings_20251018 copy.csv")
      = [some (chars "10001"), some (chars "3")] ∧
    some (chars "Heat_Vulnerability_Index_Rankings_20251018 copy.csv") ∉
      heat_build_record
        [(chars "zip_code_tabulation_area", some (chars "10001")),
         (chars "heat_vulerability_index", some (chars "3"))]
        (chars "Heat_Vulnerability_Index_Rankings_20251018 copy.csv") := by
  decide

/-- C10.  The air-quality geo-level inference returns `Borough` exactly when
the trimmed, lowercased place name equals one of the five borough names,
`Unknown` exactly when the input is missing/non-string or whitespace-only,
and `Neighborhood` in every other case. -/
theorem infer_geo_level_characterization (o : Option (List Char)) :
    (infer_geo_level o = chars "Borough" ↔
      ∃ s, o = some s ∧ pyStrip (pyLower s) ∈ BOROUGH_NAMES) ∧
    (infer_geo_level o = chars "Unknown" ↔
      (o = none ∨ ∃ s, o = some s ∧ s.all isPySpace = true)) ∧
    (infer_geo_level o = chars "Neighborhood" ↔
      ∃ s, o = some s ∧ s.all isPySpace = false ∧
        pyStrip (pyLower s) ∉ BOROUGH_NAMES) := by
  cases o with
  | none => refine ⟨?_, ?_, ?_⟩ <;> simp [infer_geo_level] <;> decide
  | some s =>
    simp only [infer_geo_level]
    by_cases h1 : (pyStrip s).isEmpty
    · have hall : s.all isPySpace = true := by
        rw [← pyStrip_eq_nil_iff]
        exact List.isEmpty_iff.mp h1
      have hlo : pyStrip (pyLower s) = [] := pyStrip_pyLower_nil hall
      rw [if_pos h1]
      refine ⟨?_, ?_, ?_⟩
      · constructor
        · intro h; exact absurd h (by decide)
        · rintro ⟨s2, hs2, hmem⟩
          obtain rfl : s2 = s := by injection hs2.symm
          rw [hlo] at hmem
          exact absurd hmem (by decide)
      · constructor
        · intro _; exact Or.inr ⟨s, rfl, hall⟩
        · intro _; rfl
      · constructor
        · intro h; exact absurd h (by decide)
        · rintro ⟨s2, hs2, hfalse, _⟩
          obtain rfl : s2 = s := by injection hs2.symm
          rw [hall] at hfalse
          exact absurd hfalse (by decide)
    · have hall : s.all isPySpace = false := by
        rw [← Bool.not_eq_true, ← pyStrip_eq_nil_iff]
        intro hcontra
        rw [hcontra] at h1
        exact h1 rfl
      rw [if_neg h1]
      by_cases h2 : pyStrip (pyLower s) ∈ BOROUGH_NAMES
      · rw [if_pos h2]
        refine ⟨?_, ?_, ?_⟩
        · simp only [true_iff]
          exact ⟨s, rfl, h2⟩
        · constructor
          · intro h; exact absurd h (by decide)
          · rintro (h | ⟨s2, hs2, hsp⟩)
            · exact absurd h (by simp)
            · obtain rfl : s2 = s := by injection hs2.symm
              rw [hall] at hsp
              exact absurd hsp (by decide)
        · constructor
          · intro h; exact absurd h (by decide)
          · rintro ⟨s2, hs2, _, hnmem⟩
            obtain rfl : s2 = s := by injection hs2.symm
            exact absurd h2 hnmem
      · rw [if_neg h2]
        refine ⟨?_, ?_, ?_⟩
        · constructor
          · intro h; exact absurd h (by decide)
          · rintro ⟨s2, hs2, hmem⟩
            obtain rfl : s2 = s := by injection hs2.symm
            exact absurd hmem h2
        · constructor
          · intro h; exact absurd h (by decide)
          · rintro (h | ⟨s2, hs2, hsp⟩)
            · exact absurd h (by simp)
            · obtain rfl : s2 = s := by injection hs2.symm
              rw [hall] at hsp
              exact absurd hsp (by decide)
        · simp only [true_iff]
          exact ⟨s, rfl, hall, h2⟩

/-- The batch loop consumes a leading run of successes by committing each
batch in index order. -/
theorem loadGo_replicate_true (k : Nat) : ∀ (l : List Bool) (i : Nat) (comm att : List Nat),
    loadGo (List.replicate k true ++ l) i comm att =
      loadGo l (i + k) ((List.range' i k).reverse ++ comm) ((List.range' i k).reverse ++ att) := by
  induction k with
  | zero => intro l i comm att; simp [List.range']
  | succ k ih =>
    intro l i comm att
    rw [List.replicate_succ]
    show loadGo (true :: (List.replicate k true ++ l)) i comm att = _
    simp only [loadGo, if_pos]
    rw [ih]
    have e1 : i + 1 + k = i + (k + 1) := by omega
    have e2 : ∀ (acc : List Nat),
        (List.range' (i + 1) k).reverse ++ i :: acc = (List.range' i (k + 1)).reverse ++ acc := by
      intro acc
      rw [List.range'_succ, List.reverse_cons, List.append_assoc]
      rfl
    rw [e1, e2, e2]

/-- C4.  If the first failing batch is batch `i` (outcomes: `i` successes,
then a failure, then anything), the run commits exactly batches `0..i-1`,
attempts exactly `0..i` (nothing after `i`), rolls back batch `i`, never
reaches the verification query, and terminates fatally; if every batch
succeeds, every batch is committed in order and the verification query runs
afterwards. -/
theorem loader_fail_fast :
    (∀ (i : Nat) (rest : List Bool),
      runLoad (List.replicate i true ++ false :: rest) =
        { committed := List.range i, attempted := List.range (i + 1),
          rolledBack := some i, verified := false, fatal := true }) ∧
    (∀ n : Nat, runLoad (List.replicate n true) =
        { committed := List.range n, attempted := List.range n,
          rolledBack := none, verified := true, fatal := false }) := by
  constructor
  · intro i rest
    unfold runLoad
    rw [loadGo_replicate_true]
    simp only [loadGo, Bool.false_eq_true, if_false, Nat.zero_add, List.append_nil]
    have hr : List.range' 0 i = List.range i := (List.range_eq_range' i).symm
    congr 1
    · rw [hr, List.reverse_reverse]
    · rw [List.reverse_cons, List.reverse_reverse, hr, ← List.range_succ]
  · intro n
    unfold runLoad
    have h := loadGo_replicate_true n [] 0 [] []
    rw [List.append_nil] at h
    rw [h]
    simp only [loadGo, Nat.zero_add, List.append_nil]
    have hr : List.range' 0 n = List.range n := (List.range_eq_range' n).symm
    congr 1 <;> rw [hr, List.reverse_reverse]

/-! ## Batcher lemmas -/

theorem ceilDiv_eq_zero_iff {S n : Nat} (hS : 0 < S) : ceilDiv n S = 0 ↔ n = 0 := by
  unfold ceilDiv
  rw [Nat.div_eq_zero_iff hS]
  omega

theorem ceilDiv_rec {S n : Nat} (hS : 0 < S) (hn : 0 < n) :
    ceilDiv n S = ceilDiv (n - S) S + 1 := by
  unfold ceilDiv
  rcases Nat.lt_or_ge n S with h | h
  · have e1 : n + S - 1 = (n - 1) + S := by omega
    have e2 : n - S = 0 := by omega
    rw [e1, Nat.add_div_right _ hS, Nat.div_eq_of_lt (by omega), e2,
      Nat.div_eq_of_lt (by omega)]
  · have e1 : n + S - 1 = ((n - S) + S - 1) + S := by omega
    rw [e1, Nat.add_div_right _ hS]

theorem chunksF_flatten {α : Type} (S : Nat) (hS : 0 < S) :
    ∀ (k : Nat) (l : List α), k = ceilDiv l.length S → (chunksF S k l).flatten = l := by
  intro k
  induction k with
  | zero =>
    intro l hk
    have : l.length = 0 := (ceilDiv_eq_zero_iff hS).mp hk.symm
    rw [List.length_eq_zero] at this
    subst this
    rfl
  | succ k ih =>
    intro l hk
    show (l.take S :: chunksF S k (l.drop S)).flatten = l
    have hlen : 0 < l.length := by
      by_contra hc
      have h0 : l.length = 0 := by omega
      rw [h0] at hk
      rw [show ceilDiv 0 S = 0 from (ceilDiv_eq_zero_iff hS).mpr rfl] at hk
      exact absurd hk (by omega)
    have hrec : ceilDiv l.length S = ceilDiv (l.length - S) S + 1 := ceilDiv_rec hS hlen
    have hk2 : k = ceilDiv (l.drop S).length S := by
      rw [List.length_drop]
      omega
    rw [List.flatten_cons, ih (l.drop S) hk2]
    exact List.take_append_drop S l

theorem chunksF_range_map {α : Type} (S : Nat) :
    ∀ (k : Nat) (l : List α),
      (List.range k).map (fun b => (l.drop (b * S)).take S) = chunksF S k l := by
  intro k
  induction k with
  | zero => intro l; rfl
  | succ k ih =>
    intro l
    rw [List.range_succ_eq_map, List.map_cons, List.map_map]
    simp only [Function.comp_def, Nat.succ_eq_add_one, Nat.zero_mul, List.drop_zero]
    have e : ∀ b : Nat, (l.drop ((b + 1) * S)).take S = ((l.drop S).drop (b * S)).take S := by
      intro b
      rw [List.drop_drop]
      congr 2
      ring
    simp only [e]
    rw [ih (l.drop S)]
    rfl

theorem pySlice_take_start {α : Type} (r : List α) (S start : Nat) :
    pySlice r start (min (start + S) r.length) = (r.drop start).take S := by
  unfold pySlice
  rcases le_or_lt start r.length with h | h
  · rcases le_or_lt S (r.length - start) with h2 | h2
    · congr 1
      omega
    · have hlen : (r.drop start).length = r.length - start := List.length_drop _ _
      rw [List.take_of_length_le (by omega), List.take_of_length_le (by omega)]
  · have hnil : r.drop start = [] := List.drop_eq_nil_of_le (by omega)
    rw [hnil]
    simp

theorem drop_min_eq {α : Type} (r : List α) (S start : Nat) :
    r.drop (min (start + S) r.length) = (r.drop start).drop S := by
  rw [List.drop_drop]
  rcases le_or_lt (start + S) r.length with h | h
  · rw [Nat.min_eq_left h]
  · rw [Nat.min_eq_right (Nat.le_of_lt h), List.drop_length,
      List.drop_eq_nil_of_le (Nat.le_of_lt h)]

theorem go1995_eq_chunksF {α : Type} (r : List α) (S : Nat) :
    ∀ (k start : Nat), go1995 r S k start = chunksF S k (r.drop start) := by
  intro k
  induction k with
  | zero => intro start; rfl
  | succ k ih =>
    intro start
    show pySlice r start (min (start + S) r.length) ::
        go1995 r S k (min (start + S) r.length) = _
    rw [pySlice_take_start, ih, drop_min_eq]
    rfl

theorem batches2015_eq_chunksF {α : Type} (r : List α) (S : Nat) :
    batches2015 r S = chunksF S (ceilDiv r.length S) r := by
  unfold batches2015
  have e : ∀ b : Nat, pySlice r (b * S) (min ((b + 1) * S) r.length)
      = (r.drop (b * S)).take S := by
    intro b
    have h : (b + 1) * S = b * S + S := by ring
    rw [h]
    exact pySlice_take_start r S (b * S)
  simp only [e]
  exact chunksF_range_map S (ceilDiv r.length S) r

theorem batches1995_eq_batches2015 {α : Type} (r : List α) (S : Nat) :
    batches1995 r S = batches2015 r S := by
  unfold batches1995
  rw [go1995_eq_chunksF, List.drop_zero, batches2015_eq_chunksF]

/-- C9.  For a record list of length `R ≥ 1` and batch size `S ≥ 1`, the
1995-style and 2015-style batch loops produce the same batch list, with
exactly `ceil(R/S)` batches, batch `b` being the slice
`records[b*S : min((b+1)*S, R)]`, the concatenation of all batches being the
record list itself (each record covered exactly once, in order), and every
batch except possibly the last having size exactly `S`. -/
theorem batching_characterization {α : Type} (r : List α) (S : Nat)
    (hS : 0 < S) (_hR : 0 < r.length) :
    batches1995 r S = batches2015 r S ∧
    (batches2015 r S).length = ceilDiv r.length S ∧
    (∀ b, b < ceilDiv r.length S →
      (batches2015 r S).getD b [] = pySlice r (b * S) (min ((b + 1) * S) r.length)) ∧
    (batches2015 r S).flatten = r ∧
    (∀ b, b + 1 < ceilDiv r.length S → ((batches2015 r S).getD b []).length = S) := by
  refine ⟨batches1995_eq_batches2015 r S, ?_, ?_, ?_, ?_⟩
  · unfold batches2015
    rw [List.length_map, List.length_range]
  · intro b hb
    unfold batches2015
    rw [List.getD_eq_getElem?_getD, List.getElem?_map, List.getElem?_range hb]
    rfl
  · rw [batches2015_eq_chunksF]
    exact chunksF_flatten S hS (ceilDiv r.length S) r rfl
  · intro b hb
    unfold batches2015
    rw [List.getD_eq_getElem?_getD, List.getElem?_map, List.getElem?_range (by omega)]
    show (pySlice r (b * S) (min ((b + 1) * S) r.length)).length = S
    have e : (b + 1) * S = b * S + S := by ring
    rw [e, pySlice_take_start r S (b * S)]
    rw [List.length_take, List.length_drop]
    have hdm : (ceilDiv r.length S) * S ≤ r.length + S - 1 := by
      unfold ceilDiv
      exact Nat.div_mul_le_self _ _
    have hb2 : (b + 2) * S ≤ (ceilDiv r.length S) * S :=
      Nat.mul_le_mul_right S (by omega)
    have e2 : (b + 2) * S = b * S + 2 * S := by ring
    omega

/-- Witness for C9: a 3-record list with batch size 2 satisfies the
hypotheses, and the theorem yields the coverage property there. -/
theorem batching_characterization_witness :
    (batches2015 [1, 2, 3] 2).flatten = [1, 2, 3] :=
  (batching_characterization [1, 2, 3] 2 (by decide) (by decide)).2.2.2.1

/-- C5 (amended).  The scripts that declare a required-column list (1995,
2005, heat-vulnerability) fail, when any required column is missing after
header normalization, with an error listing exactly the missing columns,
before reaching the transformation stage (hence before any value conversion
and any committed row); the 2015 script performs no such validation — with
`created_at` present and `health` absent its run applies the date
conversion to every row and only then fails with a lookup error naming
`health` alone. -/
theorem required_column_validation (headers : List (List Char)) (n : Nat) :
    (missing_1995 headers ≠ [] →
      run_1995_validation headers = (some (missing_1995 headers), false)) ∧
    (missing_2005 headers ≠ [] →
      run_2005_validation headers = (some (missing_2005 headers), false)) ∧
    (missing_heat headers ≠ [] →
      run_heat_validation headers = (some (missing_heat headers), false)) ∧
    ((chars "created_at") ∈ headers → (chars "health") ∉ headers →
      run2015Head headers n = (n, some [chars "health"])) := by
  refine ⟨?_, ?_, ?_, ?_⟩
  · intro h
    unfold run_1995_validation
    rw [if_neg h]
  · intro h
    unfold run_2005_validation
    rw [if_neg h]
  · intro h
    unfold run_heat_validation
    rw [if_neg h]
  · intro h1 h2
    unfold run2015Head
    have m1 : (chars "created_at") ∈ headers.filter (fun c => c ≠ chars "id") :=
      List.mem_filter.mpr ⟨h1, by decide⟩
    have m2 : (chars "health") ∉ headers.filter (fun c => c ≠ chars "id") := by
      intro hc
      exact h2 (List.mem_filter.mp hc).1
    rw [if_neg (by simp only [decide_eq_true_eq]; exact fun hc => hc m1),
      if_pos (by simp only [decide_eq_true_eq]; exact m2)]

/-- Witness for C5: a header set containing only `created_at` is missing
required columns of every validating script, and the 2015 head fails on
`health` after one date conversion. -/
theorem required_column_validation_witness :
    run_1995_validation [chars "created_at"] = (some (missing_1995 [chars "created_at"]), false) ∧
    run_2005_validation [chars "created_at"] = (some (missing_2005 [chars "created_at"]), false) ∧
    run_heat_validation [chars "created_at"] = (some (missing_heat [chars "created_at"]), false) ∧
    run2015Head [chars "created_at"] 1 = (1, some [chars "health"]) := by
  obtain ⟨h1, h2, h3, h4⟩ := required_column_validation [chars "created_at"] 1
  exact ⟨h1 (by decide), h2 (by decide), h3 (by decide), h4 (by decide) (by decide)⟩

/-- C5 (counterexample).  The claim says every script fails on a missing
required column before any value conversion.  In the 2015 script, with
`created_at` present and `health` absent, one value conversion has already
been applied per row when the run fails — not zero. -/
theorem run2015_converts_before_missing_column_error :
    run2015Head [chars "created_at"] 1 = (1, some [chars "health"]) ∧ (1 : Nat) ≠ 0 := by
  decide

/-- One per-borough keyword block of the flat rule list behaves as the
source's `any(k in n for k in ...)` test. -/
theorem block_step (n b : List Char) (ks : List (List Char))
    (rest : List (List Char × List Char)) :
    (match List.find? (fun kb => containsSub kb.1 n) (ks.map (fun k => (k, b)) ++ rest) with
     | some kb => kb.2
     | none => chars "Unknown")
    = if ks.any (fun k => containsSub k n) then b
      else (match List.find? (fun kb => containsSub kb.1 n) rest with
            | some kb => kb.2
            | none => chars "Unknown") := by
  rw [List.find?_append, List.find?_map]
  by_cases h : ks.any (fun k => containsSub k n) = true
  · rw [if_pos h]
    have hsome : (ks.find? ((fun kb => containsSub kb.1 n) ∘ (fun k => (k, b)))).isSome = true := by
      rw [List.find?_isSome]
      obtain ⟨x, hx, hp⟩ := List.any_eq_true.mp h
      exact ⟨x, hx, hp⟩
    cases hf : ks.find? ((fun kb => containsSub kb.1 n) ∘ (fun k => (k, b))) with
    | none => rw [hf] at hsome; exact absurd hsome (by decide)
    | some k =>
      rw [Option.map_some']
      rw [show (some (k, b)).or (List.find? (fun kb => containsSub kb.1 n) rest)
          = some (k, b) from rfl]
  · rw [if_neg h]
    have hnone : ks.find? ((fun kb => containsSub kb.1 n) ∘ (fun k => (k, b))) = none := by
      rw [List.find?_eq_none]
      intro x hx hp
      exact h (List.any_eq_true.mpr ⟨x, hx, hp⟩)
    rw [hnone]
    rfl

/-- `infer_borough` coincides, on every input, with the specification's
flat prioritized rule search (exception dictionary first, then the five
generic keyword sets in source order, first match wins). -/
theorem infer_borough_eq_spec : ∀ name, infer_borough name = borough_spec name := by
  intro name
  cases name with
  | none => rfl
  | some s =>
    simp only [infer_borough, borough_spec]
    by_cases h : (pyStrip s).isEmpty
    · rw [if_pos h, if_pos h]
    · rw [if_neg h, if_neg h]
      unfold boroughRules
      simp only [List.append_assoc]
      rw [List.find?_append]
      cases hexc : List.find? (fun kb => containsSub kb.1 (pyStrip (pyLower s)))
          BOROUGH_MAP_SECONDARY with
      | some kb => rfl
      | none =>
        simp only [Option.none_or]
        rw [block_step, block_step, block_step, block_step,
          ← List.append_nil (List.map (fun k => (k, chars "Staten Island"))
            STATEN_ISLAND_KEYWORDS), block_step]
        rfl

/-- C6.  Borough inference lowercases and trims the place name, then takes
the first matching rule of the prioritized search — exception dictionary of
substrings first, then the per-borough generic keyword sets; no match, or a
missing/blank input, yields `Unknown`.  In particular `"Park Slope"` maps to
`"Brooklyn"` via an exception-dictionary entry, and `"Nowhere Place"` maps
to `"Unknown"`. -/
theorem infer_borough_priority_search :
    (∀ name, infer_borough name = borough_spec name) ∧
    infer_borough (some (chars "Park Slope")) = chars "Brooklyn" ∧
    (List.find? (fun kb => containsSub kb.1 (pyStrip (pyLower (chars "Park Slope"))))
        BOROUGH_MAP_SECONDARY).map Prod.snd = some (chars "Brooklyn") ∧
    infer_borough (some (chars "Nowhere Place")) = chars "Unknown" ∧
    infer_borough none = chars "Unknown" ∧
    infer_borough (some (chars "   ")) = chars "Unknown" := by
  refine ⟨infer_borough_eq_spec, ?_, ?_, ?_, ?_, ?_⟩ <;> decide

/-! ## Date-converter lemmas -/

theorem pYear4_none_of_head {c : Char} (hc : pyIsDigit c = false) :
    ∀ l, pYear4 (c :: l) = none := by
  intro l
  rcases l with _ | ⟨b, _ | ⟨c2, _ | ⟨d, rest⟩⟩⟩ <;> simp [pYear4, hc]

theorem pMonth_none_of_head {c : Char} (hc : pyIsDigit c = false) :
    ∀ l, pMonth (c :: l) = none := by
  have h1 : (c == '1') = false := by
    rw [beq_eq_false_iff_ne]
    rintro rfl
    exact absurd hc (by decide)
  have h0 : (c == '0') = false := by
    rw [beq_eq_false_iff_ne]
    rintro rfl
    exact absurd hc (by decide)
  intro l
  rcases l with _ | ⟨b, rest⟩ <;> simp [pMonth, hc, h1, h0]

theorem strptime_nil_none : ∀ f ∈ STRPTIME_FORMATS, strptimeDate f [] = none := by
  intro f hf
  fin_cases hf <;> rfl

theorem strptime_head_not_digit {c : Char} (hc : pyIsDigit c = false) (l : List Char) :
    ∀ f ∈ STRPTIME_FORMATS, strptimeDate f (c :: l) = none := by
  intro f hf
  fin_cases hf <;>
    simp [strptimeDate, runFmt, pYear4_none_of_head hc, pMonth_none_of_head hc]

theorem lower_head_n {t rest0 : List Char} (h : pyLower t = 'n' :: rest0) :
    ∃ c rest, t = c :: rest ∧ pyLowerChar c = 'n' := by
  cases t with
  | nil => exact absurd h (by simp [pyLower])
  | cons c rest =>
    refine ⟨c, rest, rfl, ?_⟩
    have h2 : pyLowerChar c :: pyLower rest = 'n' :: rest0 := h
    injection h2

/-- `to_iso_date` equals, on every string, the first-format-that-parses
search over the fixed ordered pattern list, rendered in ISO form: the
placeholder short-circuit of the source changes nothing, because no
placeholder parses under any of the five formats. -/
theorem to_iso_date_eq_firstFormat : ∀ s : List Char,
    to_iso_date (some s) =
      (STRPTIME_FORMATS.findSome? (fun f => strptimeDate f (pyStrip s))).map isoRender := by
  intro s
  simp only [to_iso_date]
  by_cases h : ((pyStrip s).isEmpty ||
      pyLower (pyStrip s) ∈ [chars "na", chars "n/a", chars "null"]) = true
  · rw [if_pos h]
    have hnone : STRPTIME_FORMATS.findSome? (fun f => strptimeDate f (pyStrip s)) = none := by
      rw [List.findSome?_eq_none_iff]
      rcases (Bool.or_eq_true _ _).mp h with h1 | h1
      · have he : pyStrip s = [] := List.isEmpty_iff.mp h1
        rw [he]
        exact strptime_nil_none
      · simp only [decide_eq_true_eq, List.mem_cons, List.not_mem_nil, or_false] at h1
        rcases h1 with h1 | h1 | h1
        all_goals
          obtain ⟨c, rest, heq, hlow⟩ := lower_head_n (show pyLower (pyStrip s) = 'n' :: _ from h1)
          rw [heq]
          exact strptime_head_not_digit (not_digit_of_lower_n hlow) rest
    rw [hnone]
    rfl
  · rw [if_neg h]

/-- C8.  The date converter tries the fixed ordered pattern list
(`%Y-%m-%d`, `%m/%d/%Y`, `%m/%d/%y`, `%m-%d-%Y`, `%m-%d-%y`); the first
pattern that parses determines the result, rendered as the calendar date in
ISO `YYYY-MM-DD` form with no time component; an input matching no pattern
(including an invalid calendar date such as Feb 30) yields null rather
than an error. -/
theorem to_iso_date_format_priority :
    (∀ s : List Char, to_iso_date (some s) =
      (STRPTIME_FORMATS.findSome? (fun f => strptimeDate f (pyStrip s))).map isoRender) ∧
    to_iso_date none = none ∧
    to_iso_date (some (chars " 8/27/15 ")) = some (chars "2015-08-27") ∧
    to_iso_date (some (chars "2015-08-27")) = some (chars "2015-08-27") ∧
    to_iso_date (some (chars "02/01/2003")) = some (chars "2003-02-01") ∧
    to_iso_date (some (chars "1-2-03")) = some (chars "2003-01-02") ∧
    to_iso_date (some (chars "2/30/2020")) = none ∧
    to_iso_date (some (chars "2/29/2020")) = some (chars "2020-02-29") ∧
    to_iso_date (some (chars "hello")) = none := by
  refine ⟨to_iso_date_eq_firstFormat, rfl, ?_, ?_, ?_, ?_, ?_, ?_, ?_⟩ <;> decide

/-- Every letter-case variant of the placeholder literals `NA`, `N/A`,
`null`. -/
def nullPlaceholderVariants : List (List Char) :=
  [chars "NA", chars "Na", chars "nA", chars "na",
   chars "N/A", chars "N/a", chars "n/A", chars "n/a",
   chars "null", chars "nulL", chars "nuLl", chars "nuLL",
   chars "nUll", chars "nUlL", chars "nULl", chars "nULL",
   chars "Null", chars "NulL", chars "NuLl", chars "NuLL",
   chars "NUll", chars "NUlL", chars "NULl", chars "NULL"]

theorem to_int_bounded_none {s : Option (List Char)} (low high : Int)
    (h : to_int s = none) : to_int_bounded s low high = none := by
  unfold to_int_bounded
  rw [h]

set_option maxHeartbeats 2000000 in
/-- C7.  Every value converter — tri-state boolean, integer, bounded
integer (any bounds), decimal, date, and the three category-bucket
converters — returns null, raising no error, on the empty string, any
whitespace-only string, and every letter-case variant of `NA`, `N/A`,
`null` (the empty string is the all-whitespace case of length zero). -/
theorem converters_null_on_placeholders (s : List Char) (low high : Int)
    (h : s.all isPySpace = true ∨ s ∈ nullPlaceholderVariants) :
    to_bool (some s) = none ∧ to_int (some s) = none ∧
    to_int_bounded (some s) low high = none ∧ to_dec (some s) = none ∧
    to_iso_date (some s) = none ∧ condition_to_health_3cat (some s) = none ∧
    status_to_health_3cat (some s) = none ∧ health_to_health_3cat (some s) = none := by
  rcases h with h | h
  · have hstrip : pyStrip s = [] := (pyStrip_eq_nil_iff s).mpr h
    have hfilter : s.filter (fun c => !(isPySpace c || c == ',')) = [] := by
      rw [List.filter_eq_nil_iff]
      intro a ha
      have := List.all_eq_true.mp h a ha
      simp [this]
    have hint : to_int (some s) = none := by
      simp only [to_int, hfilter]
      rfl
    refine ⟨?_, hint, to_int_bounded_none low high hint, ?_, ?_, ?_, ?_, ?_⟩
    · simp only [to_bool, hstrip]
      decide
    · simp only [to_dec, hfilter]
      rfl
    · simp only [to_iso_date, hstrip]
      rfl
    · simp only [condition_to_health_3cat, hstrip]
      decide
    · simp only [status_to_health_3cat, hstrip]
      decide
    · simp only [health_to_health_3cat, hstrip]
      decide
  · fin_cases h <;>
      exact ⟨by decide, by decide, to_int_bounded_none low high (by decide), by decide,
        by decide, by decide, by decide, by decide⟩

/-- Witness for C7: the mixed-case placeholder `N/a` and a whitespace-only
string convert to null under the converters. -/
theorem converters_null_witness :
    to_iso_date (some (chars "N/a")) = none ∧
    to_int_bounded (some (chars "N/a")) 0 400 = none ∧
    to_bool (some (chars "  ")) = none :=
  ⟨(converters_null_on_placeholders (chars "N/a") 0 400 (by decide)).2.2.2.2.1,
   (converters_null_on_placeholders (chars "N/a") 0 400 (by decide)).2.2.1,
   (converters_null_on_placeholders (chars "  ") 0 400 (by decide)).1⟩
